import Mathlib

/-!
# Verification of the systemd user-process-management checker

A shallow embedding of the parsing, merging and aggregation logic of
`src/main.py` (class `SystemdUserChecker`), together with theorems that
settle the frozen claims C1..C10 about it.

Conventions of the embedding:
* Python strings are Lean `String`s; the Python string primitives used by the
  source (`str.split`, `str.split(sep)`, `str.split(sep, 1)`, `str.strip`,
  `str.startswith`, `in`, `str.lower`, `' '.join`) are re-implemented below as
  executable recursive functions over `List Char` so that every theorem can be
  evaluated by `decide` on concrete inputs.
* Python `None` is `Option.none`; a Python dict is an association list with
  insertion-order semantics (`dictInsert` updates in place, else appends),
  and dict lookup is `List.lookup`.
* External effects (spawning a process, `Path.glob`) are abstracted by small
  outcome types (`CommandOutcome`, `ScanOutcome`); everything downstream of
  the effect is translated literally from the source.
-/

/-! ## Python string primitives -/

/-- `listLeads pat l` is true when `pat` is an initial run of `l`
(the list form of Python `str.startswith`). -/
def listLeads : List Char → List Char → Bool
  | [], _ => true
  | _ :: _, [] => false
  | p :: ps, c :: cs => p == c && listLeads ps cs

/-- `listOccurs pat l` is true when `pat` occurs contiguously inside `l`
(the list form of Python `pat in s`). -/
def listOccurs (pat : List Char) : List Char → Bool
  | [] => listLeads pat []
  | c :: cs => listLeads pat (c :: cs) || listOccurs pat cs

/-- Python `s.startswith(pat)`. -/
def strStarts (s pat : String) : Bool := listLeads pat.toList s.toList

/-- Python `pat in s` (substring containment). -/
def strHas (s pat : String) : Bool := listOccurs pat.toList s.toList

/-- Python `s.split(sep)` on a single-character separator: splits at every
occurrence, keeping empty groups (`"".split(c) == [""]`). -/
def splitListOn (sep : Char) : List Char → List (List Char)
  | [] => [[]]
  | c :: cs =>
    if c = sep then [] :: splitListOn sep cs
    else
      match splitListOn sep cs with
      | [] => [[c]]
      | g :: gs => (c :: g) :: gs

/-- Python `s.split('\n')`, as used on every captured command output. -/
def splitLines (s : String) : List String :=
  (splitListOn '\n' s.toList).map (fun l => String.mk l)

/-- Accumulator for `pyFields`: groups maximal runs of non-whitespace. -/
def wsplitAux : List Char → List Char → List (List Char)
  | acc, [] => if acc.isEmpty then [] else [acc.reverse]
  | acc, c :: cs =>
    if c.isWhitespace then
      if acc.isEmpty then wsplitAux [] cs else acc.reverse :: wsplitAux [] cs
    else wsplitAux (c :: acc) cs

/-- Python `s.split()` with no argument: whitespace-separated fields, empty
fields discarded. -/
def pyFields (s : String) : List String :=
  (wsplitAux [] s.toList).map (fun l => String.mk l)

/-- Python `s.strip()`: drop whitespace from both ends. -/
def pyStrip (s : String) : String :=
  String.mk (((s.toList.dropWhile Char.isWhitespace).reverse.dropWhile
    Char.isWhitespace).reverse)

/-- Python truthiness test `not line.strip()`: a line is blank exactly when
every character is whitespace. -/
def isBlank (s : String) : Bool := s.toList.all Char.isWhitespace

/-- Python `s.lower()` (the source only lowercases ASCII state words). -/
def lowerStr (s : String) : String := String.mk (s.toList.map Char.toLower)

/-- Python `s.split(sep, 1)`: split at the first occurrence only; `none` when
the separator does not occur (the source guards with `sep in line` first). -/
def splitFirst (sep : Char) : List Char → Option (List Char × List Char)
  | [] => none
  | c :: cs =>
    if c = sep then some ([], cs)
    else (splitFirst sep cs).map (fun p => (c :: p.1, p.2))

/-- Python `' '.join(l)`. -/
def joinSp : List String → String
  | [] => ""
  | [s] => s
  | s :: rest => s ++ " " ++ joinSp rest

/-- Python dict assignment `d[k] = v` on an insertion-ordered dict: update the
value in place when the key is present, otherwise append the binding. -/
def dictInsert (d : List (String × String)) (k v : String) :
    List (String × String) :=
  if d.any (fun p => p.1 == k) then
    d.map (fun p => if p.1 = k then (k, v) else p)
  else d ++ [(k, v)]

/-! ## Data model (`main.py` lines 44-79) -/

/-- `UserInfo` dataclass (lines 44-51). -/
structure UserInfo where
  name : String
  uid : Nat
  gid : Nat
  home : String
  groups : List String
  linger : Option Bool := none
deriving DecidableEq

/-- `SystemdDir` dataclass (lines 54-61); `exists` is a Lean keyword, hence
the trailing underscore. `unit_count` is an `Int` because `-1` is the
"count unknown" sentinel. -/
structure SystemdDir where
  name : String
  path : String
  exists_ : Bool
  is_directory : Bool
  unit_count : Int := 0
  accessible : Bool := true
deriving DecidableEq

/-- `SystemdUnit` dataclass (lines 64-71); `state` is the static enablement
state, defaulted to `"unknown"`. -/
structure SystemdUnit where
  name : String
  state : String
  load : String := "unknown"
  active : String := "unknown"
  sub : String := "unknown"
  description : String := ""
deriving DecidableEq

/-- `SystemdTimer` dataclass (lines 74-79); `Option` fields are Python
`Optional[str]` defaulted to `None`. -/
structure SystemdTimer where
  name : String
  next_activation : Option String := none
  time_left : Option String := none
  last_activation : Option String := none
deriving DecidableEq

/-! ## Command runner (`_run_command`, lines 138-154) -/

/-- Outcome of `subprocess.run` inside `_run_command`: the three ways the
`try` block can go — a completed child process (any exit code), a
`subprocess.TimeoutExpired`, or any other exception (missing executable,
permission denial, ...) whose message is `str(e)`. -/
inductive CommandOutcome where
  | completed (stdout : String) (returncode : Int)
  | timedOut
  | spawnFailed (message : String)
deriving DecidableEq

/-- `_run_command` (lines 138-154): the `(text_output, exit_code)` result for
each outcome of the spawned process. Totality of this function is the
embedding of "never raises on a failure path". -/
def runCommand : CommandOutcome → String × Int
  | .completed out rc => (pyStrip out, rc)
  | .timedOut => ("Command timed out", 124)
  | .spawnFailed msg => (msg, 1)

/-! ## Directory inventory (`check_user_directories`, lines 221-246) -/

/-- The unit-file extensions counted per directory (line 229). -/
def unit_extensions : List String :=
  [".service", ".socket", ".timer", ".target", ".mount", ".automount"]

/-- Outcome of the `path.glob` counting loop (lines 228-237): it either
completes with a total count, raises `PermissionError`, or raises some other
exception after having already accumulated `countSoFar` matches — the source
does not reset `unit_count` on that last path. -/
inductive ScanOutcome where
  | ok (count : Nat)
  | permDenied
  | scanFailed (countSoFar : Nat)
deriving DecidableEq

/-- Loop body of `check_user_directories` (lines 221-246) for one probed
path: filesystem existence/type checks and the scan outcome are inputs, the
constructed `SystemdDir` is the result. On `PermissionError` the count is set
to the `-1` sentinel and `accessible` to false; on any other scan failure
only `accessible` is set to false (the partial count is kept); when the path
is missing or not a directory the scan never runs and the defaults
(`unit_count = 0`, `accessible = true`) stand. -/
def probeDirectory (name path : String) (pathExists isDir : Bool)
    (scan : ScanOutcome) : SystemdDir :=
  if pathExists && isDir then
    match scan with
    | .ok n =>
      { name := name, path := path, exists_ := pathExists,
        is_directory := isDir, unit_count := (n : Int), accessible := true }
    | .permDenied =>
      { name := name, path := path, exists_ := pathExists,
        is_directory := isDir, unit_count := -1, accessible := false }
    | .scanFailed p =>
      { name := name, path := path, exists_ := pathExists,
        is_directory := isDir, unit_count := (p : Int), accessible := false }
  else
    { name := name, path := path, exists_ := pathExists,
      is_directory := isDir, unit_count := 0, accessible := true }

/-! ## Manager status (`check_systemd_manager`, lines 265-298) -/

/-- One line of `systemctl --user status` output: lines 274-279. A line is
processed only when it contains a colon; it is split at the first colon and
both sides are stripped. -/
def colonKV (line : String) : Option (String × String) :=
  (splitFirst ':' line.toList).map
    (fun p => (pyStrip (String.mk p.1), pyStrip (String.mk p.2)))

/-- Fold step building `status_data` (line 279): `status_data[key] = value`. -/
def managerStep (d : List (String × String)) (line : String) :
    List (String × String) :=
  match colonKV line with
  | some kv => dictInsert d kv.1 kv.2
  | none => d

/-- `check_systemd_manager` (lines 265-298), restricted to the returned
`status_data` mapping: on exit code 0 every colon-line contributes a stripped
`key -> value` binding; on a nonzero exit the mapping is the single synthetic
entry `("Status", "Not running")` (line 293). -/
def check_systemd_manager (output : String) (code : Int) :
    List (String × String) :=
  if code = 0 then (splitLines output).foldl managerStep []
  else [("Status", "Not running")]

/-- The per-line entries of the mapping, in input order (used to state what
`check_systemd_manager` computes when no key repeats). -/
def colonEntries (lines : List String) : List (String × String) :=
  lines.filterMap colonKV

/-- The running classification used by `generate_summary` (line 555):
`'running' in str(manager_status.get('State', '')).lower()`. -/
def isManagerRunning (status : List (String × String)) : Bool :=
  strHas (lowerStr ((List.lookup "State" status).getD "")) "running"

/-! ## Unit report builder (`list_user_units`, lines 300-370) -/

/-- The header test of the live listing (line 317): the line must start with
`UNIT` and contain `LOAD`, `ACTIVE` and `SUB`. -/
def isHeaderLine (line : String) : Bool :=
  strStarts line "UNIT" && strHas line "LOAD" && strHas line "ACTIVE" &&
    strHas line "SUB"

/-- One candidate data row of the live listing (lines 322-332): accepted only
when it splits into at least 5 whitespace-separated fields; the enablement
`state` defaults to `"unknown"` and the description rejoins the tail fields. -/
def rowUnit (line : String) : Option SystemdUnit :=
  let parts := pyFields line
  if 5 ≤ parts.length then
    some { name := parts.getD 0 "", state := "unknown",
           load := parts.getD 1 "", active := parts.getD 2 "",
           sub := parts.getD 3 "",
           description := if 4 < parts.length then joinSp (parts.drop 4) else "" }
  else none

/-- The live-listing line loop (lines 310-332) with its `header_found` flag:
blank lines are skipped (`continue`), a header line sets the flag and is
skipped, and once the flag is set every remaining non-blank non-header line
is a candidate data row. -/
def parseLiveLines : List String → Bool → List SystemdUnit
  | [], _ => []
  | line :: rest, headerFound =>
    if isBlank line then parseLiveLines rest headerFound
    else if isHeaderLine line then parseLiveLines rest true
    else if headerFound then
      match rowUnit line with
      | some u => u :: parseLiveLines rest headerFound
      | none => parseLiveLines rest headerFound
    else parseLiveLines rest headerFound

/-- The live-listing query result (lines 303-332): a nonzero exit degrades
to the empty set (lines 306-308). -/
def parseLiveUnits (output : String) (code : Int) : List SystemdUnit :=
  if code ≠ 0 then [] else parseLiveLines (splitLines output) false

/-- The static-listing (`list-unit-files`) parse building `unit_states`
(lines 337-342): keep lines that are non-blank and start neither with `UNIT`
nor with `unit files`, and for every such line with at least 2 fields map the
first field to the last field. -/
def parseUnitFiles (output : String) : List (String × String) :=
  (splitLines output).foldl
    (fun d line =>
      if !isBlank line && !strStarts line "UNIT" &&
          !strStarts line "unit files" then
        let parts := pyFields line
        if 2 ≤ parts.length then
          dictInsert d (parts.getD 0 "") ((parts.getLast?).getD "")
        else d
      else d)
    []

/-- The merge loop (lines 344-346): every live unit whose name is a key of
`unit_states` has its `state` overwritten with the mapped value; membership
of the result is exactly the live listing. -/
def mergeStates (units : List SystemdUnit) (unit_states : List (String × String)) :
    List SystemdUnit :=
  units.map (fun u =>
    match List.lookup u.name unit_states with
    | some v => { u with state := v }
    | none => u)

/-- `list_user_units` (lines 300-346), with the two command outputs and the
live exit code as inputs (the static listing's exit code is ignored by the
source, line 335). -/
def list_user_units (liveOut : String) (liveCode : Int) (filesOut : String) :
    List SystemdUnit :=
  mergeStates (parseLiveUnits liveOut liveCode) (parseUnitFiles filesOut)

/-! ## Timer listing (`list_user_timers`, lines 372-399) -/

/-- The timer header test (line 386): `NEXT`, `LEFT` and `LAST` all occur. -/
def isTimerHeader (line : String) : Bool :=
  strHas line "NEXT" && strHas line "LEFT" && strHas line "LAST"

/-- One timer data row (lines 391-398), from its whitespace-separated fields:
rows with fewer than 4 fields are rejected; `next_activation` is
`' '.join(parts[1:3])` when there are at least 3 fields (else the bare
`parts[1]`), `time_left` is `parts[3]` when there are at least 4 fields, and
`last_activation` is `' '.join(parts[4:6])` only when there are at least 6
fields. The inner guards are kept exactly as written in the source even
where the outer `len(parts) >= 4` guard subsumes them. -/
def timerRow (parts : List String) : Option SystemdTimer :=
  if 4 ≤ parts.length then
    some { name := parts.getD 0 "",
           next_activation :=
             some (if 3 ≤ parts.length then joinSp ((parts.drop 1).take 2)
                   else parts.getD 1 ""),
           time_left :=
             if 4 ≤ parts.length then some (parts.getD 3 "") else none,
           last_activation :=
             if 6 ≤ parts.length then some (joinSp ((parts.drop 4).take 2))
             else none }
  else none

/-- The timer-listing line loop (lines 382-399): blank lines skipped, the
header sets the flag, and after the header every line not starting with
`timers listed` is a candidate row parsed by `timerRow`. -/
def parseTimerLines : List String → Bool → List SystemdTimer
  | [], _ => []
  | line :: rest, headerFound =>
    if isBlank line then parseTimerLines rest headerFound
    else if isTimerHeader line then parseTimerLines rest true
    else if headerFound && !strStarts line "timers listed" then
      match timerRow (pyFields line) with
      | some t => t :: parseTimerLines rest headerFound
      | none => parseTimerLines rest headerFound
    else parseTimerLines rest headerFound

/-- `list_user_timers` (lines 372-399): a nonzero exit yields no timers. -/
def list_user_timers (output : String) (code : Int) : List SystemdTimer :=
  if code = 0 then parseTimerLines (splitLines output) false else []

/-! ## Linger inspector (`check_linger_status`, lines 416-441) -/

/-- The property query command (line 420): built from the resolved user's
name only — the invoking process's identity is not an input. -/
def lingerCommand (name : String) : List String :=
  ["loginctl", "show-user", name, "-p", "Linger"]

/-- `check_linger_status` (lines 423-428), from the command output and exit
code to the three-valued linger state: `none` (unknown) on a failed query or
when no line starts with `Linger=`; otherwise the first such line is split on
`'='` and the second piece, stripped, is compared with `"yes"`. -/
def check_linger_status (output : String) (code : Int) : Option Bool :=
  if code = 0 then
    match (splitLines output).find? (fun l => strStarts l "Linger=") with
    | some line =>
      some (pyStrip (String.mk ((splitListOn '=' line.toList).getD 1 [])) == "yes")
    | none => none
  else none

/-! ## Report aggregator (`generate_summary`, lines 528-557) -/

/-- The `summary` nested dict of `generate_summary`, flattened: one field per
scalar the source computes (`summary['services']['active']` becomes
`services_active`, and so on). The source computes no `failed` entry for
sockets and neither count for timers. -/
structure Summary where
  user_name : String
  user_uid : Nat
  user_linger : Option Bool
  config_exists : Bool
  total_units : Int
  services_total : Nat
  services_active : Nat
  services_failed : Nat
  sockets_total : Nat
  sockets_active : Nat
  timers_total : Nat
  manager_running : Bool
deriving DecidableEq

/-- `generate_summary` (lines 528-557) as a pure function of the previously
collected entities. -/
def generate_summary (user : UserInfo) (directories : List SystemdDir)
    (services sockets : List SystemdUnit) (timers : List SystemdTimer)
    (manager_status : List (String × String)) : Summary :=
  { user_name := user.name
    user_uid := user.uid
    user_linger := user.linger
    config_exists :=
      directories.any (fun d => strHas d.name "Config" && d.exists_)
    total_units :=
      ((directories.filter (fun d => decide (0 < d.unit_count))).map
        (fun d => d.unit_count)).sum
    services_total := services.length
    services_active := (services.filter (fun s => s.active == "active")).length
    services_failed := (services.filter (fun s => s.active == "failed")).length
    sockets_total := sockets.length
    sockets_active := (sockets.filter (fun s => s.active == "active")).length
    timers_total := timers.length
    manager_running := isManagerRunning manager_status }

/-- Modelled from the spec (section 4.8 / claim C7): the total unit-file
count "across accessible directories (negative/unknown counts excluded from
the sum)". Stated for comparison with what `generate_summary` computes. -/
def specTotalUnits (directories : List SystemdDir) : Int :=
  ((directories.filter (fun d => d.accessible && decide (0 ≤ d.unit_count))).map
    (fun d => d.unit_count)).sum

/-- Modelled from the spec (section 4.4 / claim C2): the claimed header test,
"the literal column labels UNIT, LOAD, ACTIVE, SUB all on one line (order
among these four is not assumed)". Stated for comparison with
`isHeaderLine`. -/
def specHeaderLine (line : String) : Bool :=
  strHas line "UNIT" && strHas line "LOAD" && strHas line "ACTIVE" &&
    strHas line "SUB"

/-! ## Helper lemmas -/

/-- An accepted live-listing row always carries the default enablement state
`"unknown"` (line 326 of the source sets `state="unknown"` unconditionally). -/
theorem rowUnit_state {l : String} {u : SystemdUnit} (h : rowUnit l = some u) :
    u.state = "unknown" := by
  simp only [rowUnit] at h
  split at h
  · injection h with h
    subst h
    rfl
  · cases h

/-- Every unit produced by the live-listing line loop has `state = "unknown"`. -/
theorem parseLiveLines_state (lines : List String) (hf : Bool) :
    ∀ u ∈ parseLiveLines lines hf, u.state = "unknown" := by
  induction lines generalizing hf with
  | nil => intro u hu; cases hu
  | cons l ls ih =>
    intro u hu
    simp only [parseLiveLines] at hu
    split at hu
    · exact ih hf u hu
    · split at hu
      · exact ih true u hu
      · split at hu
        · cases hr : rowUnit l with
          | some v =>
            rw [hr] at hu
            rcases List.mem_cons.mp hu with h | h
            · subst h; exact rowUnit_state hr
            · exact ih hf u h
          | none =>
            rw [hr] at hu
            exact ih hf u hu
        · exact ih hf u hu

/-- After the header has been seen, the line loop is a `filterMap`: blank
lines and header-shaped lines are skipped, every other line goes through
`rowUnit`. In particular a blank line does not stop the loop. -/
theorem parseLiveLines_true_eq (post : List String) :
    parseLiveLines post true =
      post.filterMap (fun l => if isBlank l then none
        else if isHeaderLine l then none else rowUnit l) := by
  induction post with
  | nil => rfl
  | cons l ls ih =>
    by_cases h1 : isBlank l = true
    · simp [parseLiveLines, List.filterMap_cons, h1, ih]
    · by_cases h2 : isHeaderLine l = true
      · simp [parseLiveLines, List.filterMap_cons, h1, h2, ih]
      · cases hr : rowUnit l with
        | some u => simp [parseLiveLines, List.filterMap_cons, h1, h2, hr, ih]
        | none => simp [parseLiveLines, List.filterMap_cons, h1, h2, hr, ih]

/-- Lines before the first header line are ignored by the live-listing loop. -/
theorem parseLiveLines_skip (pre post : List String)
    (h : ∀ l ∈ pre, isHeaderLine l = false) :
    parseLiveLines (pre ++ post) false = parseLiveLines post false := by
  induction pre with
  | nil => rfl
  | cons l ls ih =>
    have hl := h l (List.mem_cons_self l ls)
    have hls : ∀ x ∈ ls, isHeaderLine x = false :=
      fun x hx => h x (List.mem_cons_of_mem l hx)
    by_cases h1 : isBlank l = true
    · simp only [List.cons_append, parseLiveLines, h1, if_pos]
      exact ih hls
    · simp only [List.cons_append, parseLiveLines, h1, hl]
      simp only [Bool.false_eq_true, if_false]
      exact ih hls

/-- A header line is never blank (it starts with the character `U`). -/
theorem header_not_blank (l : String) (h : isHeaderLine l = true) :
    isBlank l = false := by
  unfold isHeaderLine at h
  simp only [Bool.and_eq_true] at h
  have h1 : strStarts l "UNIT" = true := h.1.1.1
  unfold strStarts at h1
  rw [show "UNIT".toList = ['U', 'N', 'I', 'T'] from rfl] at h1
  unfold isBlank
  cases hl : l.toList with
  | nil => rw [hl] at h1; simp [listLeads] at h1
  | cons c cs =>
    rw [hl] at h1
    simp only [listLeads, Bool.and_eq_true, beq_iff_eq] at h1
    obtain ⟨hc, _⟩ := h1
    subst hc
    have hU : 'U'.isWhitespace = false := by decide
    simp [List.all_cons, hU]

/-- A header line flips the `header_found` flag. -/
theorem parseLiveLines_header (hdr : String) (post : List String)
    (h : isHeaderLine hdr = true) :
    parseLiveLines (hdr :: post) false = parseLiveLines post true := by
  have hb := header_not_blank hdr h
  simp [parseLiveLines, hb, h]

/-- The merge loop never changes the name (or membership/order) of the live
units: it only rewrites the `state` field in place. -/
theorem mergeStates_names (live : List SystemdUnit) (m : List (String × String)) :
    (mergeStates live m).map SystemdUnit.name = live.map SystemdUnit.name := by
  induction live with
  | nil => rfl
  | cons u us ih =>
    cases h : List.lookup u.name m with
    | some v => simpa [mergeStates, h] using ih
    | none => simpa [mergeStates, h] using ih

/-- Pointwise description of the merge loop: the `i`-th merged unit is the
`i`-th live unit, with its `state` replaced by the static-listing value when
its name is a key of the map. -/
theorem mergeStates_get (live : List SystemdUnit) (m : List (String × String))
    (i : Nat) (hi : i < live.length) (hi' : i < (mergeStates live m).length) :
    (mergeStates live m).get ⟨i, hi'⟩ =
      match List.lookup (live.get ⟨i, hi⟩).name m with
      | some v => { live.get ⟨i, hi⟩ with state := v }
      | none => live.get ⟨i, hi⟩ := by
  induction live generalizing i with
  | nil => exact absurd hi (Nat.not_lt_zero i)
  | cons u us ih =>
    cases i with
    | zero => rfl
    | succ j =>
      have hj : j < us.length := Nat.lt_of_succ_lt_succ hi
      have hj' : j < (mergeStates us m).length := by
        simpa [mergeStates] using hj
      exact ih j hj hj'

/-- Python dict assignment on a fresh key appends the binding. -/
theorem dictInsert_of_forall_ne (d : List (String × String)) (k v : String)
    (h : ∀ p ∈ d, p.1 ≠ k) : dictInsert d k v = d ++ [(k, v)] := by
  unfold dictInsert
  have hfalse : (d.any fun p => p.1 == k) = false := by
    rw [Bool.eq_false_iff]
    intro hx
    rw [List.any_eq_true] at hx
    obtain ⟨p, hp, hpk⟩ := hx
    exact h p hp (by simpa using hpk)
  simp [hfalse]

/-- When no two colon-lines share a (stripped) key, folding the dict
assignments of `check_systemd_manager` over the lines yields exactly the
per-line entries, in input order. -/
theorem foldl_managerStep (lines : List String) :
    ∀ (d : List (String × String)),
      ((colonEntries lines).map Prod.fst).Nodup →
      (∀ k ∈ (colonEntries lines).map Prod.fst, ∀ p ∈ d, p.1 ≠ k) →
      lines.foldl managerStep d = d ++ colonEntries lines := by
  induction lines with
  | nil => intro d _ _; simp [colonEntries]
  | cons l ls ih =>
    intro d hnd hdis
    cases hkv : colonKV l with
    | none =>
      have hce : colonEntries (l :: ls) = colonEntries ls := by
        simp [colonEntries, List.filterMap_cons, hkv]
      rw [hce] at hnd hdis ⊢
      simp only [List.foldl_cons]
      have hstep : managerStep d l = d := by simp [managerStep, hkv]
      rw [hstep]
      exact ih d hnd hdis
    | some kv =>
      have hce : colonEntries (l :: ls) = kv :: colonEntries ls := by
        simp [colonEntries, List.filterMap_cons, hkv]
      rw [hce] at hnd hdis ⊢
      simp only [List.map_cons, List.nodup_cons] at hnd
      obtain ⟨hk_notin, hnd'⟩ := hnd
      simp only [List.foldl_cons]
      have hstep : managerStep d l = d ++ [(kv.1, kv.2)] := by
        simp only [managerStep, hkv]
        exact dictInsert_of_forall_ne d kv.1 kv.2
          (fun p hp => hdis kv.1 (by simp) p hp)
      rw [hstep]
      have hdis' : ∀ k ∈ (colonEntries ls).map Prod.fst,
          ∀ p ∈ d ++ [(kv.1, kv.2)], p.1 ≠ k := by
        intro k hk p hp
        rcases List.mem_append.mp hp with hpd | hpe
        · exact hdis k (by simp [hk]) p hpd
        · simp only [List.mem_singleton] at hpe
          subst hpe
          intro hcon
          apply hk_notin
          rw [show kv.1 = k from hcon]
          exact hk
      rw [ih (d ++ [(kv.1, kv.2)]) hnd' hdis']
      simp

/-- What `generate_summary` sums (the strictly positive `unit_count`s) agrees
with the spec's accessible-only sum exactly under the invariant that every
inaccessible directory carries a negative count. -/
theorem total_units_eq : ∀ (dirs : List SystemdDir),
    (∀ d ∈ dirs, d.accessible = false → d.unit_count < 0) →
    ((dirs.filter (fun d => decide (0 < d.unit_count))).map
      (fun d => d.unit_count)).sum = specTotalUnits dirs := by
  intro dirs
  induction dirs with
  | nil => intro _; rfl
  | cons d ds ih =>
    intro hinv
    have hd := hinv d (List.mem_cons_self d ds)
    have ihds := ih (fun x hx => hinv x (List.mem_cons_of_mem d hx))
    unfold specTotalUnits at ihds ⊢
    by_cases h1 : (0 : Int) < d.unit_count
    · have hacc : d.accessible = true := by
        cases hacc : d.accessible
        · exact absurd (hd hacc) (by omega)
        · rfl
      have hb1 : decide ((0 : Int) < d.unit_count) = true := by simpa using h1
      have hb2 : (d.accessible && decide ((0 : Int) ≤ d.unit_count)) = true := by
        rw [hacc]
        simpa using (by omega : (0 : Int) ≤ d.unit_count)
      simp [List.filter_cons, hb1, hb2, ihds]
    · have hb1 : decide ((0 : Int) < d.unit_count) = false := by simpa using h1
      by_cases hacc : d.accessible = true
      · by_cases h2 : (0 : Int) ≤ d.unit_count
        · have h0 : d.unit_count = 0 := by omega
          have hb2 : (d.accessible && decide ((0 : Int) ≤ d.unit_count)) = true := by
            rw [hacc]; simpa using h2
          simp [List.filter_cons, hb1, hb2, ihds]
          omega
        · have hb2 : (d.accessible && decide ((0 : Int) ≤ d.unit_count)) = false := by
            simp only [Bool.and_eq_false_iff]
            right
            simpa using h2
          simp [List.filter_cons, hb1, hb2, ihds]
      · have hacc' : d.accessible = false := by
          cases h : d.accessible
          · rfl
          · exact absurd h hacc
        have hb2 : (d.accessible && decide ((0 : Int) ≤ d.unit_count)) = false := by
          rw [hacc']; rfl
        simp [List.filter_cons, hb1, hb2, ihds]

/-! ## Claim theorems -/

/-- C1: For every pair of parsed live and static unit listings, the merged
result contains exactly the units of the live listing (same names, same
order); a unit present only in the static map is never added (in particular
`live = []` with `static = [("foo.service", "enabled")]` merges to `[]`);
every live-parsed unit starts with the default `"unknown"` state, which the
merge overwrites with the mapped value when the unit's name is a key of the
static map and leaves unchanged (hence `"unknown"`) otherwise. -/
theorem c1_merge_live_defines_membership (live : List SystemdUnit)
    (m : List (String × String)) (i : Nat) (hi : i < live.length)
    (hi' : i < (mergeStates live m).length) :
    (mergeStates live m).map SystemdUnit.name = live.map SystemdUnit.name ∧
    mergeStates [] [("foo.service", "enabled")] = [] ∧
    (∀ output code, ∀ u ∈ parseLiveUnits output code, u.state = "unknown") ∧
    (∀ v, List.lookup (live.get ⟨i, hi⟩).name m = some v →
      ((mergeStates live m).get ⟨i, hi'⟩).state = v) ∧
    (List.lookup (live.get ⟨i, hi⟩).name m = none →
      ((mergeStates live m).get ⟨i, hi'⟩).state = (live.get ⟨i, hi⟩).state) := by
  refine ⟨mergeStates_names live m, rfl, ?_, ?_, ?_⟩
  · intro output code u hu
    unfold parseLiveUnits at hu
    split at hu
    · cases hu
    · exact parseLiveLines_state _ _ u hu
  · intro v hv
    rw [mergeStates_get live m i hi hi', hv]
  · intro hv
    rw [mergeStates_get live m i hi hi', hv]

/-- Witness for C1 at a concrete merge: one live unit whose name is mapped by
the static listing has its state overwritten to the mapped value. -/
theorem c1_witness :
    ((mergeStates
        [{ name := "foo.service", state := "unknown", load := "loaded",
           active := "active", sub := "running", description := "demo" }]
        [("bar.service", "disabled"), ("foo.service", "enabled")]).get
      ⟨0, by decide⟩).state = "enabled" :=
  (c1_merge_live_defines_membership
    [{ name := "foo.service", state := "unknown", load := "loaded",
       active := "active", sub := "running", description := "demo" }]
    [("bar.service", "disabled"), ("foo.service", "enabled")]
    0 (by decide) (by decide)).2.2.2.1 "enabled" (by decide)

/-- C2 counterexample: the claim's header test (the four labels co-occur in
any order) and its blank-line cutoff are both wrong. The source additionally
requires the line to start with `UNIT` (so a header with the labels in a
different order is not recognized and the rows after it parse to nothing),
and a blank line is skipped rather than terminating the data rows (a row
after a blank line is still parsed). -/
theorem c2_counterexample :
    specHeaderLine "LOAD ACTIVE SUB UNIT" = true ∧
    isHeaderLine "LOAD ACTIVE SUB UNIT" = false ∧
    parseLiveUnits "LOAD ACTIVE SUB UNIT\na.service loaded active running desc" 0 = [] ∧
    parseLiveUnits "UNIT LOAD ACTIVE SUB DESCRIPTION\n\nb.service loaded active running desc" 0 =
      [{ name := "b.service", state := "unknown", load := "loaded",
         active := "active", sub := "running", description := "desc" }] := by
  decide

/-- C2 (amended): the live parser recognizes the header as a line that starts
with `UNIT` and contains `LOAD`, `ACTIVE` and `SUB`; every line before the
header is ignored; after the header the remaining lines are candidate data
rows to the end of input, with blank lines (and further header-shaped lines)
skipped rather than terminating; a candidate row is accepted iff it splits
into at least 5 whitespace-separated fields (name, load, active, sub,
description words rejoined), and a shorter row is skipped without error. -/
theorem c2_live_listing (pre post : List String) (hdr : String)
    (hpre : ∀ l ∈ pre, isHeaderLine l = false)
    (hhdr : isHeaderLine hdr = true) :
    parseLiveLines (pre ++ hdr :: post) false =
      post.filterMap (fun l => if isBlank l then none
        else if isHeaderLine l then none else rowUnit l) ∧
    (∀ l, (rowUnit l).isSome = true ↔ 5 ≤ (pyFields l).length) ∧
    (∀ ps : List String, 5 ≤ ps.length → ∀ l, pyFields l = ps →
      rowUnit l = some { name := ps.getD 0 "", state := "unknown",
                         load := ps.getD 1 "", active := ps.getD 2 "",
                         sub := ps.getD 3 "",
                         description := if 4 < ps.length then joinSp (ps.drop 4)
                                        else "" }) := by
  refine ⟨?_, ?_, ?_⟩
  · rw [parseLiveLines_skip pre (hdr :: post) hpre,
      parseLiveLines_header hdr post hhdr, parseLiveLines_true_eq]
  · intro l
    simp only [rowUnit]
    by_cases h : 5 ≤ (pyFields l).length
    · simp [h]
    · simp [h]
  · intro ps hps l hl
    simp only [rowUnit]
    rw [hl, if_pos hps]

/-- Witness for C2 at a concrete listing: banner ignored, short row skipped,
5-field row accepted. -/
theorem c2_witness :
    parseLiveLines ["banner noise",
      "UNIT LOAD ACTIVE SUB DESCRIPTION",
      "a.service loaded active running hello world", "too few"] false =
      [{ name := "a.service", state := "unknown", load := "loaded",
         active := "active", sub := "running", description := "hello world" }] :=
  ((c2_live_listing ["banner noise"]
      ["a.service loaded active running hello world", "too few"]
      "UNIT LOAD ACTIVE SUB DESCRIPTION" (by decide) (by decide)).1).trans
    (by decide)

/-- C3: a timer data row with exactly 4 whitespace-separated fields parses to
a record with the name, a next-activation value, a time-left value and an
absent last-activation; one with 6 fields has all four attributes populated,
next-activation and last-activation each joining two source columns; one
with fewer than 4 fields is skipped (`timerRow` rejects it and the line loop
drops the line), with no out-of-range access possible. -/
theorem c3_timer_rows (a b c d e f : String) (ps : List String)
    (hps : ps.length < 4) (l : String) (rest : List String) :
    timerRow [a, b, c, d] =
      some { name := a, next_activation := some (b ++ " " ++ c),
             time_left := some d, last_activation := none } ∧
    timerRow [a, b, c, d, e, f] =
      some { name := a, next_activation := some (b ++ " " ++ c),
             time_left := some d, last_activation := some (e ++ " " ++ f) } ∧
    timerRow ps = none ∧
    (timerRow (pyFields l) = none →
      parseTimerLines (l :: rest) true = parseTimerLines rest true) := by
  refine ⟨?_, ?_, ?_, ?_⟩
  · simp [timerRow, joinSp]
  · simp [timerRow, joinSp]
  · unfold timerRow
    rw [if_neg (by omega)]
  · intro ht
    by_cases h1 : isBlank l = true
    · simp [parseTimerLines, h1]
    · by_cases h2 : isTimerHeader l = true
      · simp [parseTimerLines, h1, h2]
      · by_cases h3 : strStarts l "timers listed" = true
        · simp [parseTimerLines, h1, h2, h3]
        · simp [parseTimerLines, h1, h2, h3, ht]

/-- Witness for C3 at concrete rows: a 4-field row, a 6-field row, and a
1-field row. -/
theorem c3_witness :
    timerRow ["a.timer", "Mon", "10:00", "5min"] =
      some { name := "a.timer", next_activation := some "Mon 10:00",
             time_left := some "5min", last_activation := none } ∧
    timerRow ["b.timer", "Mon", "10:00", "5min", "Sun", "09:00"] =
      some { name := "b.timer", next_activation := some "Mon 10:00",
             time_left := some "5min", last_activation := some "Sun 09:00" } ∧
    timerRow ["x"] = none := by
  have h4 := c3_timer_rows "a.timer" "Mon" "10:00" "5min" "e" "f" ["x"]
    (by decide) "l" []
  have h6 := c3_timer_rows "b.timer" "Mon" "10:00" "5min" "Sun" "09:00" ["x"]
    (by decide) "l" []
  exact ⟨h4.1.trans (by decide), h6.2.1.trans (by decide), h4.2.2.1⟩


/-- C4 counterexample: on the generic (non-permission) enumeration-failure
path the probe sets `accessible = false` but keeps the non-negative count
accumulated before the exception, so `accessible = false` does not force a
negative count and a non-negative count does not force `accessible = true`. -/
theorem c4_counterexample :
    (probeDirectory "User Config" "/home/u/.config/systemd/user" true true (.scanFailed 2)).accessible = false ∧
    (probeDirectory "User Config" "/home/u/.config/systemd/user" true true (.scanFailed 2)).unit_count = 2 ∧
    ¬ (probeDirectory "User Config" "/home/u/.config/systemd/user" true true (.scanFailed 2)).unit_count < 0 := by
  decide

/-- C4 (amended): on the permission-failure path the probe reports
`accessible = false` together with the `-1` "unknown" sentinel; on any other
enumeration-failure path it likewise reports `accessible = false` but the
count keeps the non-negative value accumulated before the failure; a
successful scan reports `accessible = true` with the non-negative count. -/
theorem c4_directory_probe (name path : String) (e i : Bool) (n p : Nat)
    (he : e = true) (hi : i = true) :
    probeDirectory name path e i .permDenied =
      { name := name, path := path, exists_ := e, is_directory := i,
        unit_count := -1, accessible := false } ∧
    (probeDirectory name path e i .permDenied).unit_count < 0 ∧
    probeDirectory name path e i (.scanFailed p) =
      { name := name, path := path, exists_ := e, is_directory := i,
        unit_count := (p : Int), accessible := false } ∧
    (0 : Int) ≤ (probeDirectory name path e i (.scanFailed p)).unit_count ∧
    probeDirectory name path e i (.ok n) =
      { name := name, path := path, exists_ := e, is_directory := i,
        unit_count := (n : Int), accessible := true } := by
  refine ⟨?_, ?_, ?_, ?_, ?_⟩
  · simp [probeDirectory, he, hi]
  · simp [probeDirectory, he, hi]
  · simp [probeDirectory, he, hi]
  · simp [probeDirectory, he, hi]
  · simp [probeDirectory, he, hi]

/-- Witness for C4 at a concrete permission-denied probe. -/
theorem c4_witness :
    probeDirectory "User Runtime" "/run/user/1000" true true .permDenied =
      { name := "User Runtime", path := "/run/user/1000", exists_ := true,
        is_directory := true, unit_count := -1, accessible := false } :=
  (c4_directory_probe "User Runtime" "/run/user/1000" true true 0 0 rfl rfl).1

/-- C5: the static-listing parser accepts a 2-field row mapping the first
field to the last (with or without a middle preset column) and skips the
header, but its summary-line test checks `startswith('unit files')` while
the conventional trailing summary line starts with its count (for example
`2 unit files listed.`), so that line is not skipped: it has at least 2
fields and yields a spurious entry mapping the count to the final word. A
1-field row is skipped. -/
theorem c5_static_listing :
    parseUnitFiles "UNIT FILE STATE\nfoo.service enabled\n\n2 unit files listed." =
      [("foo.service", "enabled"), ("2", "listed.")] ∧
    parseUnitFiles "UNIT FILE STATE PRESET\nfoo.service enabled enabled\nbar.service disabled\nunit files listed summary" =
      [("foo.service", "enabled"), ("bar.service", "disabled")] ∧
    strStarts "2 unit files listed." "unit files" = false ∧
    parseUnitFiles "UNIT FILE STATE\nonefield" = [] := by
  refine ⟨by decide, by decide, by decide, by decide⟩

/-- C6: on exit code 0 the manager-status parser maps each colon-line to a
binding splitting only at the first colon and stripping both sides (shown in
general when no stripped key repeats, values retaining their own colons); a
`State` value containing "running" in any case classifies the manager as
healthy while `degraded`/`stopped` do not; a nonzero exit yields exactly the
single synthetic entry `("Status", "Not running")`, never an empty map. -/
theorem c6_manager_status (output : String) (code : Int) (s : String)
    (hnd : ((colonEntries (splitLines output)).map Prod.fst).Nodup) :
    (code ≠ 0 → check_systemd_manager output code = [("Status", "Not running")]) ∧
    check_systemd_manager output 0 = colonEntries (splitLines output) ∧
    (strHas (lowerStr s) "running" = true → isManagerRunning [("State", s)] = true) ∧
    isManagerRunning [("State", "Running")] = true ∧
    isManagerRunning [("State", "RUNNING")] = true ∧
    isManagerRunning [("State", "degraded")] = false ∧
    isManagerRunning [("State", "stopped")] = false ∧
    colonEntries ["Since: Mon 2024-01-01 10:00:00 UTC"] =
      [("Since", "Mon 2024-01-01 10:00:00 UTC")] := by
  refine ⟨?_, ?_, ?_, by decide, by decide, by decide, by decide, by decide⟩
  · intro hc
    simp [check_systemd_manager, hc]
  · simp only [check_systemd_manager, if_pos rfl]
    exact foldl_managerStep (splitLines output) [] hnd (by simp)
  · intro hs
    simpa [isManagerRunning, List.lookup] using hs

/-- Witness for C6 at a concrete status output and a concrete failure. -/
theorem c6_witness :
    check_systemd_manager "State: degraded\nFailed: 2 units\nSince: Mon 10:00:00" 0 =
      [("State", "degraded"), ("Failed", "2 units"), ("Since", "Mon 10:00:00")] ∧
    check_systemd_manager "anything" 5 = [("Status", "Not running")] := by
  have h := c6_manager_status "State: degraded\nFailed: 2 units\nSince: Mon 10:00:00" 5 "x" (by decide)
  exact ⟨h.2.1.trans (by decide), h.1 (by decide)⟩

/-- C7 counterexample: `generate_summary` sums every strictly positive
`unit_count` without consulting the `accessible` flag, so an inaccessible
directory carrying a positive partial count is included in the total, while
the claim's accessible-only sum excludes it. -/
theorem c7_counterexample :
    (generate_summary { name := "u", uid := 1000, gid := 1000, home := "/home/u", groups := [], linger := none }
      [{ name := "User Config", path := "/p", exists_ := true, is_directory := true, unit_count := 3, accessible := false }]
      [] [] [] []).total_units = 3 ∧
    specTotalUnits
      [{ name := "User Config", path := "/p", exists_ := true, is_directory := true, unit_count := 3, accessible := false }] = 0 ∧
    (3 : Int) ≠ 0 := by
  decide

/-- C7 (amended): the summary's total unit-file count sums the strictly
positive directory counts — negative/unknown counts are excluded rather than
treated as zero or negative, but the `accessible` flag is not consulted, so
the total equals the spec's accessible-only sum exactly when every
inaccessible directory carries a negative count; active counts for services
and sockets and a failed count for services only (no failed count for
sockets, neither for timers) are computed by exact string match of
`active` against `"active"`/`"failed"`; and the overall healthy boolean is
exactly the running classification of the manager status. -/
theorem c7_summary (user : UserInfo) (dirs : List SystemdDir)
    (services sockets : List SystemdUnit) (timers : List SystemdTimer)
    (ms : List (String × String))
    (hinv : ∀ d ∈ dirs, d.accessible = false → d.unit_count < 0) :
    (generate_summary user dirs services sockets timers ms).total_units = specTotalUnits dirs ∧
    (generate_summary user dirs services sockets timers ms).manager_running = isManagerRunning ms ∧
    (generate_summary user dirs services sockets timers ms).services_active =
      (services.filter (fun s => s.active == "active")).length ∧
    (generate_summary user dirs services sockets timers ms).services_failed =
      (services.filter (fun s => s.active == "failed")).length ∧
    (generate_summary { name := "u", uid := 0, gid := 0, home := "/", groups := [], linger := none } []
      [{ name := "a.service", state := "enabled", load := "loaded", active := "active", sub := "running", description := "" },
       { name := "b.service", state := "unknown", load := "loaded", active := "activating", sub := "start", description := "" },
       { name := "c.service", state := "unknown", load := "loaded", active := "failed", sub := "failed", description := "" },
       { name := "d.service", state := "unknown", load := "loaded", active := "ACTIVE", sub := "running", description := "" }]
      [] [] []).services_active = 1 ∧
    (generate_summary { name := "u", uid := 0, gid := 0, home := "/", groups := [], linger := none } []
      [{ name := "a.service", state := "enabled", load := "loaded", active := "active", sub := "running", description := "" },
       { name := "b.service", state := "unknown", load := "loaded", active := "activating", sub := "start", description := "" },
       { name := "c.service", state := "unknown", load := "loaded", active := "failed", sub := "failed", description := "" },
       { name := "d.service", state := "unknown", load := "loaded", active := "ACTIVE", sub := "running", description := "" }]
      [] [] []).services_failed = 1 := by
  refine ⟨?_, rfl, rfl, rfl, by decide, by decide⟩
  exact total_units_eq dirs hinv

/-- Witness for C7 at concrete inputs satisfying the
inaccessible-implies-negative-count invariant. -/
theorem c7_witness :
    (generate_summary { name := "u", uid := 1000, gid := 1000, home := "/home/u", groups := [], linger := none }
      [{ name := "User Config", path := "/c", exists_ := true, is_directory := true, unit_count := 2, accessible := true },
       { name := "User Runtime", path := "/r", exists_ := true, is_directory := true, unit_count := -1, accessible := false }]
      [] [] [] []).total_units =
      specTotalUnits
        [{ name := "User Config", path := "/c", exists_ := true, is_directory := true, unit_count := 2, accessible := true },
         { name := "User Runtime", path := "/r", exists_ := true, is_directory := true, unit_count := -1, accessible := false }] :=
  (c7_summary { name := "u", uid := 1000, gid := 1000, home := "/home/u", groups := [], linger := none }
    [{ name := "User Config", path := "/c", exists_ := true, is_directory := true, unit_count := 2, accessible := true },
     { name := "User Runtime", path := "/r", exists_ := true, is_directory := true, unit_count := -1, accessible := false }]
    [] [] [] [] (by decide)).1

/-- C8: the command runner is a total function of the spawn outcome (the
embedding of "never raises on any failure path"): a completed process yields
its stripped stdout with its exit code, a timeout yields the explanatory
string with the dedicated sentinel code 124 — distinct from the generic
spawn-failure code 1 and from success 0 — and every spawn failure is
converted to the `(message, 1)` result. -/
theorem c8_command_runner :
    (∀ out rc, runCommand (.completed out rc) = (pyStrip out, rc)) ∧
    runCommand .timedOut = ("Command timed out", 124) ∧
    (∀ msg, runCommand (.spawnFailed msg) = (msg, 1)) ∧
    (runCommand .timedOut).2 ≠ (runCommand (.spawnFailed "x")).2 ∧
    (runCommand .timedOut).2 ≠ 0 := by
  refine ⟨fun _ _ => rfl, rfl, fun _ => rfl, by decide, by decide⟩

/-- C9: the linger query command is built from the resolved user's name only
(the invoking process's identity is not an input of `lingerCommand`); a
failed query yields the `unknown` value `none`, as does output with no
`Linger=` line; and on a successful query with a well-formed property line
`Linger=<v>` the result is `some (v.strip == "yes")` — `true` exactly when
the stripped property value is `yes`, `false` otherwise — so `some false`
(confirmed disabled) is distinct from `none` (could not determine). -/
theorem c9_linger (name output v line : String) (code : Int) :
    lingerCommand name = ["loginctl", "show-user", name, "-p", "Linger"] ∧
    (code ≠ 0 → check_linger_status output code = none) ∧
    ((splitLines output).find? (fun l => strStarts l "Linger=") = none →
      check_linger_status output 0 = none) ∧
    ((splitLines output).find? (fun l => strStarts l "Linger=") = some line →
      splitListOn '=' line.toList = ["Linger".toList, v.toList] →
      check_linger_status output 0 = some (pyStrip v == "yes")) ∧
    (some false ≠ (none : Option Bool)) := by
  refine ⟨rfl, ?_, ?_, ?_, by decide⟩
  · intro hc
    simp [check_linger_status, hc]
  · intro hf
    simp [check_linger_status, hf]
  · intro hf hsplit
    simp only [check_linger_status, if_pos rfl, hf]
    rw [hsplit]
    rfl

/-- Witness for C9 at concrete outputs: `Linger=yes`, `Linger=no`, output
with no Linger line, and a failed query. -/
theorem c9_witness :
    check_linger_status "Linger=yes" 0 = some true ∧
    check_linger_status "Linger=no" 0 = some false ∧
    check_linger_status "no linger property here" 0 = none ∧
    check_linger_status "Linger=yes" 3 = none := by
  have hy := c9_linger "alice" "Linger=yes" "yes" "Linger=yes" 3
  have hn := c9_linger "alice" "Linger=no" "no" "Linger=no" 3
  have hu := c9_linger "alice" "no linger property here" "x" "y" 3
  refine ⟨?_, ?_, ?_, ?_⟩
  · exact (hy.2.2.2.1 (by decide) (by decide)).trans (by decide)
  · exact (hn.2.2.2.1 (by decide) (by decide)).trans (by decide)
  · exact hu.2.2.1 (by decide)
  · exact hy.2.1 (by decide)

/-- C10: for every accepted timer row (at least 4 fields) the
next-activation is unconditionally the space-join of fields 1 and 2 (the
`parts[1]` fallback branch is unreachable because 4 ≤ |parts| implies
3 ≤ |parts|); for a row with exactly 5 fields the last-activation is absent
and the fifth field is discarded — the parse result does not depend on it. -/
theorem c10_timer_defaults (ps : List String) (h : 4 ≤ ps.length)
    (a b c d e e' : String) :
    timerRow ps =
      some { name := ps.getD 0 "",
             next_activation := some (joinSp ((ps.drop 1).take 2)),
             time_left := some (ps.getD 3 ""),
             last_activation :=
               if 6 ≤ ps.length then some (joinSp ((ps.drop 4).take 2))
               else none } ∧
    timerRow [a, b, c, d, e] =
      some { name := a, next_activation := some (b ++ " " ++ c),
             time_left := some d, last_activation := none } ∧
    timerRow [a, b, c, d, e] = timerRow [a, b, c, d, e'] := by
  refine ⟨?_, ?_, ?_⟩
  · unfold timerRow
    rw [if_pos h, if_pos (by omega : 3 ≤ ps.length), if_pos h]
  · simp [timerRow, joinSp]
  · simp [timerRow, joinSp]

/-- Witness for C10 at a concrete 5-field row. -/
theorem c10_witness :
    timerRow ["w.timer", "Mon", "09:00", "2h", "extra"] =
      some { name := "w.timer", next_activation := some "Mon 09:00",
             time_left := some "2h", last_activation := none } := by
  have h := c10_timer_defaults ["w.timer", "Mon", "09:00", "2h", "extra"]
    (by decide) "w.timer" "Mon" "09:00" "2h" "extra" "ignored"
  exact h.2.1.trans (by decide)
